import Mathlib

/-!
Verification of the Dawami attendance / leave-management core.

Shallow embedding of the backend services
(`attendance_service.py`, `leave_service.py`, `reporting_service.py`)
of the Alwaseet-Group-Python repository.

Modelling conventions:
* The SQLite database is a record of lists, one list per table, plus the
  next autoincrement ids.  Row order in a list is insertion order;
  `INSERT` appends, `UPDATE ... WHERE id = ?` maps over the list,
  `fetchone` on a key query is `List.find?` (first matching row).
* Timestamps (`YYYY-MM-DD HH:MM:SS` strings in the store) are modelled as
  `Int` seconds; calendar dates (`YYYY-MM-DD` strings) as `Int` days.
  The source compares these strings lexicographically and the fixed-width
  format makes that ordering coincide with chronological ordering, so the
  integer order is a faithful image.  `dateOf` is the projection of a
  timestamp to its calendar date (`strftime(DATE_FORMAT)`).
* Python floats used for leave balances are modelled as `ℚ` (exact
  arithmetic).
* `sqlite3.Error` handlers are modelled by `..._run` wrappers taking a
  `db_error` flag that selects the `except` branch of the source.
-/

/-- Calendar-date projection of a timestamp (abstracts
`datetime.strftime(DATE_FORMAT)`: timestamps within one calendar day map
to the same date). -/
def dateOf (t : Int) : Int := t / 86400

/-- Row of the AttendanceLog table. -/
structure AttendanceRecord where
  id : Nat
  employee_id : Nat
  clock_in_time : Int
  clock_out_time : Option Int
  attendance_date : Int
  notes : Option String
  source : String
deriving Repr, DecidableEq

/-- Row of the Employees table (only the fields the core reads). -/
structure Employee where
  id : Nat
  first_name : String
  last_name : String
  employee_code : String
deriving Repr, DecidableEq

/-- Row of the LeaveTypes table. -/
structure LeaveType where
  id : Nat
  type_name : String
  default_balance : Option ℚ
deriving Repr, DecidableEq

/-- Row of the LeaveBalances table. -/
structure LeaveBalance where
  id : Nat
  employee_id : Nat
  leave_type_id : Nat
  year : Int
  balance : ℚ
deriving Repr, DecidableEq

/-- Row of the LeaveRequests table. -/
structure LeaveRequest where
  id : Nat
  employee_id : Nat
  leave_type_id : Nat
  start_date : Int
  end_date : Int
  reason : String
  status : String
  approver_id : Option Nat
  request_date : Int
deriving Repr, DecidableEq

/-- The SQLite database `dawami_dev.db`. -/
structure Db where
  employees : List Employee
  attendance_log : List AttendanceRecord
  leave_types : List LeaveType
  leave_balances : List LeaveBalance
  leave_requests : List LeaveRequest
  next_log_id : Nat
  next_balance_id : Nat
deriving Repr, DecidableEq

/-- The empty database. -/
def emptyDb : Db :=
  { employees := [], attendance_log := [], leave_types := [],
    leave_balances := [], leave_requests := [],
    next_log_id := 1, next_balance_id := 1 }

/-! ## attendance_service.py -/

/-- Source: `attendance_service.clock_in` (success path).  Always inserts a
new AttendanceLog row with absent `clock_out_time`; there is no check for
an already-open session ("For this version, we allow multiple clock-ins
without checking for open ones").  Returns the new row id. -/
def clock_in (s : Db) (employee_id : Nat) (clock_in_time_dt : Int)
    (notes : Option String) (source : String) : Nat × Db :=
  let row : AttendanceRecord :=
    { id := s.next_log_id, employee_id := employee_id,
      clock_in_time := clock_in_time_dt, clock_out_time := none,
      attendance_date := dateOf clock_in_time_dt,
      notes := notes, source := source }
  (s.next_log_id,
   { s with attendance_log := s.attendance_log ++ [row],
            next_log_id := s.next_log_id + 1 })

/-- Open AttendanceLog rows of one employee, in table order
(the `WHERE employee_id = ? AND clock_out_time IS NULL` filter). -/
def open_logs (s : Db) (employee_id : Nat) : List AttendanceRecord :=
  s.attendance_log.filter
    (fun r => r.employee_id == employee_id && r.clock_out_time.isNone)

/-- Number of open rows for an employee. -/
def openCount (s : Db) (employee_id : Nat) : Nat :=
  (open_logs s employee_id).length

/-- Fold step realising `ORDER BY clock_in_time DESC LIMIT 1`: keep the
row with the larger `clock_in_time`.  The SQL leaves the choice among
ties unspecified; this model keeps the earliest-inserted one.  None of
the verified claims depends on the tie-break. -/
def choose_later (best : Option AttendanceRecord) (r : AttendanceRecord) :
    Option AttendanceRecord :=
  match best with
  | none => some r
  | some b => if b.clock_in_time < r.clock_in_time then some r else some b

/-- Source: `attendance_service.get_open_attendance`.  Most recent (by
`clock_in_time`) open row for the employee, or `none`. -/
def get_open_attendance (s : Db) (employee_id : Nat) :
    Option AttendanceRecord :=
  (open_logs s employee_id).foldl choose_later none

/-- Python truthiness of an optional string (`if notes:`): `None` and the
empty string are falsy. -/
def truthyStr (o : Option String) : Bool :=
  match o with
  | none => false
  | some s => !s.isEmpty

/-- Notes merging of `clock_out`: appended notes are labelled and joined
to the clock-in notes, mirroring the `if notes:` / `if updated_notes:`
branches of the source. -/
def merge_notes (existing notes : Option String) : Option String :=
  if truthyStr notes then
    match notes with
    | none => existing
    | some n =>
      if truthyStr existing then
        match existing with
        | none => some ("Clock-out: " ++ n)
        | some e => some (e ++ "\nClock-out: " ++ n)
      else some ("Clock-out: " ++ n)
  else existing

/-- Source: `attendance_service.clock_out`.  Looks up the open session;
returns `false` (and leaves the store unchanged) when there is none or
when the clock-out time is strictly before its clock-in time; otherwise
sets `clock_out_time` and the merged notes on that row and returns
`true`. -/
def clock_out (s : Db) (employee_id : Nat) (clock_out_time_dt : Int)
    (notes : Option String) : Bool × Db :=
  match get_open_attendance s employee_id with
  | none => (false, s)
  | some open_log =>
    if clock_out_time_dt < open_log.clock_in_time then (false, s)
    else
      let updated_notes := merge_notes open_log.notes notes
      (true,
       { s with attendance_log :=
           s.attendance_log.map (fun r =>
             if r.id == open_log.id then
               { r with clock_out_time := some clock_out_time_dt,
                        notes := updated_notes }
             else r) })

example :
    openCount (clock_in (clock_in emptyDb 1 100 none "manual").2
        1 200 none "manual").2 1 = 2 := by decide

example :
    (clock_out (clock_in emptyDb 1 100 none "manual").2 1 50 none).1
      = false := by decide

example :
    (clock_out (clock_in emptyDb 1 100 none "manual").2 1 150 none).1
      = true := by decide

/-! ## leave_service.py -/

/-- The `SELECT ... FROM LeaveBalances WHERE employee_id = ? AND
leave_type_id = ? AND year = ?` / `fetchone` query. -/
def find_balance_row (s : Db) (employee_id leave_type_id : Nat)
    (year : Int) : Option LeaveBalance :=
  s.leave_balances.find? (fun r =>
    r.employee_id == employee_id && r.leave_type_id == leave_type_id &&
    r.year == year)

/-- The `SELECT ... FROM LeaveTypes WHERE id = ?` / `fetchone` query. -/
def find_leave_type (s : Db) (leave_type_id : Nat) : Option LeaveType :=
  s.leave_types.find? (fun r => r.id == leave_type_id)

/-- Source: `leave_service.get_leave_balance` (non-error path).  Returns
the stored balance if a row exists; else the leave type's
`default_balance` when that is non-null; else 0.  The commented-out call
to `update_leave_balance` in the source is not executed, so the read
performs only SELECTs. -/
def get_leave_balance (s : Db) (employee_id leave_type_id : Nat)
    (year : Int) : ℚ :=
  match find_balance_row s employee_id leave_type_id year with
  | some row => row.balance
  | none =>
    match find_leave_type s leave_type_id with
    | some lt_row =>
      match lt_row.default_balance with
      | some d => d
      | none => 0
    | none => 0

/-- Source: `leave_service.get_leave_balance` viewed as a full call
returning the (unchanged) database: the function body contains only
SELECT statements, no INSERT or UPDATE. -/
def get_leave_balance_call (s : Db) (employee_id leave_type_id : Nat)
    (year : Int) : ℚ × Db :=
  (get_leave_balance s employee_id leave_type_id year, s)

/-- The `base_balance` computed in `update_leave_balance` when no row
exists: the leave type's default balance when present, else 0. -/
def default_of (s : Db) (leave_type_id : Nat) : ℚ :=
  match find_leave_type s leave_type_id with
  | some lt_row =>
    match lt_row.default_balance with
    | some d => d
    | none => 0
  | none => 0

/-- Source: `leave_service.update_leave_balance` (non-error path).
With an existing row: sets the balance to `change_amount` when
`is_initial_balance`, else adds `change_amount` to it (UPDATE by row id).
Without a row: inserts a new row whose balance is `change_amount` when
`is_initial_balance`, else `base_balance + change_amount` where
`base_balance` is the leave type's default (or 0).  Returns the new
balance. -/
def update_leave_balance (s : Db) (employee_id leave_type_id : Nat)
    (year : Int) (change_amount : ℚ) (is_initial_balance : Bool) :
    ℚ × Db :=
  match find_balance_row s employee_id leave_type_id year with
  | some existing_balance_row =>
    let new_balance :=
      if is_initial_balance then change_amount
      else existing_balance_row.balance + change_amount
    (new_balance,
     { s with leave_balances :=
         s.leave_balances.map (fun r =>
           if r.id == existing_balance_row.id then
             { r with balance := new_balance }
           else r) })
  | none =>
    let new_balance :=
      if is_initial_balance then change_amount
      else default_of s leave_type_id + change_amount
    (new_balance,
     { s with leave_balances :=
         s.leave_balances ++
           [{ id := s.next_balance_id, employee_id := employee_id,
              leave_type_id := leave_type_id, year := year,
              balance := new_balance }],
              next_balance_id := s.next_balance_id + 1 })

/-- Source: `leave_service._update_leave_request_status`.  Loads the
request by id; returns `false` (store unchanged) when absent; otherwise
unconditionally overwrites `status` and `approver_id` and returns
`true`.  The terminal-state guard in the source is commented out. -/
def update_leave_request_status (s : Db) (leave_request_id : Nat)
    (new_status : String) (approver_id : Nat) : Bool × Db :=
  match s.leave_requests.find? (fun r => r.id == leave_request_id) with
  | none => (false, s)
  | some _ =>
    (true,
     { s with leave_requests :=
         s.leave_requests.map (fun r =>
           if r.id == leave_request_id then
             { r with status := new_status,
                      approver_id := some approver_id }
           else r) })

/-- Source: `leave_service.approve_leave_request`. -/
def approve_leave_request (s : Db) (leave_request_id approver_id : Nat) :
    Bool × Db :=
  update_leave_request_status s leave_request_id "Approved" approver_id

/-- Source: `leave_service.reject_leave_request`. -/
def reject_leave_request (s : Db) (leave_request_id approver_id : Nat) :
    Bool × Db :=
  update_leave_request_status s leave_request_id "Rejected" approver_id

/-! ## reporting_service.py -/

/-- Zero-padding to width two, the Python format spec `{n:02}` for a
non-negative value. -/
def format2 (n : Nat) : String :=
  if n < 10 then "0" ++ toString n else toString n

/-- Source: `reporting_service._calculate_duration`, on parsed
timestamps.  (The `ValueError` branch of the source is unreachable here
because the model works on already-parsed times.) -/
def calculate_duration (clock_in_t : Option Int)
    (clock_out_t : Option Int) : String :=
  match clock_in_t with
  | none => "N/A"
  | some cin =>
    match clock_out_t with
    | none => "Open"
    | some cout =>
      if cout < cin then "Invalid (Out < In)"
      else
        let total_seconds := (cout - cin).toNat
        let hours := total_seconds / 3600
        let minutes := (total_seconds % 3600) / 60
        let seconds := total_seconds % 60
        format2 hours ++ ":" ++ format2 minutes ++ ":" ++ format2 seconds

/-- Row of the daily attendance report (employee display fields
omitted; the claims concern the duration column). -/
structure DailyReportRow where
  employee_id : Nat
  clock_in_time : Int
  clock_out_time : Option Int
  duration : String
deriving Repr, DecidableEq

/-- Source: `reporting_service.get_daily_attendance_report` (non-error
path): one row per AttendanceLog record with the given
`attendance_date`, with the duration column computed by
`_calculate_duration`.  The ORDER BY clause only permutes rows and the
employee join only adds display columns; the claims quantify over row
membership and the duration value. -/
def get_daily_attendance_report (s : Db) (report_date : Int) :
    List DailyReportRow :=
  (s.attendance_log.filter (fun r => r.attendance_date == report_date)).map
    (fun r =>
      { employee_id := r.employee_id,
        clock_in_time := r.clock_in_time,
        clock_out_time := r.clock_out_time,
        duration := calculate_duration (some r.clock_in_time)
          r.clock_out_time })

/-- An optional SQL filter clause: absent filters are not added to the
WHERE clause (always pass), present ones compare for equality. -/
def opt_filter {α : Type} [BEq α] (f : Option α) (v : α) : Bool :=
  match f with
  | none => true
  | some x => v == x

/-- Source: `reporting_service.get_leave_report` (non-error path).  The
WHERE clause is `lr.start_date <= end AND lr.end_date >= start` plus the
optional employee / leave-type / status filters; the INNER JOINs with
Employees and LeaveTypes keep only requests whose foreign keys resolve.
The ORDER BY clause only permutes rows and the joins only add display
columns; the claims quantify over row membership. -/
def get_leave_report (s : Db) (start_date end_date : Int)
    (employee_id : Option Nat) (leave_type_id : Option Nat)
    (status : Option String) : List LeaveRequest :=
  s.leave_requests.filter (fun r =>
    decide (r.start_date ≤ end_date) && decide (start_date ≤ r.end_date) &&
    opt_filter employee_id r.employee_id &&
    opt_filter leave_type_id r.leave_type_id &&
    opt_filter status r.status &&
    s.employees.any (fun e => e.id == r.employee_id) &&
    s.leave_types.any (fun lt => lt.id == r.leave_type_id))

/-- Source: `reporting_service.get_absentee_report` (non-error path):
employees with no AttendanceLog row on the report date and no Approved
leave request whose date interval contains it.  The ORDER BY clause only
permutes rows. -/
def get_absentee_report (s : Db) (report_date : Int) : List Employee :=
  s.employees.filter (fun e =>
    !(s.attendance_log.any (fun al =>
        al.employee_id == e.id && al.attendance_date == report_date)) &&
    !(s.leave_requests.any (fun lr =>
        lr.employee_id == e.id && lr.status == "Approved" &&
        decide (lr.start_date ≤ report_date) &&
        decide (report_date ≤ lr.end_date))))

/-! ## Error-branch wrappers

The services catch `sqlite3.Error` and fall back to a fixed return
value.  The `db_error` flag selects that `except` branch. -/

/-- Source: `leave_service.get_leave_balance` including its
`except sqlite3.Error: return 0.0` handler. -/
def get_leave_balance_run (db_error : Bool) (s : Db)
    (employee_id leave_type_id : Nat) (year : Int) : ℚ :=
  if db_error then 0 else get_leave_balance s employee_id leave_type_id year

/-- Source: `attendance_service.clock_in` including its
`except sqlite3.Error: return None` handlers (the failed INSERT is not
committed, so the store is unchanged). -/
def clock_in_run (db_error : Bool) (s : Db) (employee_id : Nat)
    (clock_in_time_dt : Int) (notes : Option String) (source : String) :
    Option Nat × Db :=
  if db_error then (none, s)
  else
    let r := clock_in s employee_id clock_in_time_dt notes source
    (some r.1, r.2)

example : calculate_duration (some (9 * 3600)) (some (17 * 3600 + 30 * 60))
    = "08:30:00" := by decide

example : calculate_duration (some 3600) (some 0)
    = "Invalid (Out < In)" := by decide

example : calculate_duration (some 3600) none = "Open" := by decide

/-! ## Helper lemmas about the open-session selector -/

theorem choose_later_none (r : AttendanceRecord) :
    choose_later none r = some r := rfl

theorem choose_later_some (b r : AttendanceRecord) :
    choose_later (some b) r =
      if b.clock_in_time < r.clock_in_time then some r else some b := rfl

theorem foldl_choose_later_isSome (l : List AttendanceRecord)
    (b : AttendanceRecord) :
    ∃ c, l.foldl choose_later (some b) = some c := by
  induction l generalizing b with
  | nil => exact ⟨b, rfl⟩
  | cons r t ih =>
    simp only [List.foldl_cons, choose_later_some]
    split
    · exact ih r
    · exact ih b

theorem get_open_attendance_eq_none_iff (s : Db) (e : Nat) :
    get_open_attendance s e = none ↔ open_logs s e = [] := by
  unfold get_open_attendance
  cases h : open_logs s e with
  | nil => simp
  | cons r t =>
    simp only [List.foldl_cons, choose_later_none]
    obtain ⟨c, hc⟩ := foldl_choose_later_isSome t r
    simp [hc]

theorem foldl_choose_later_mem (l : List AttendanceRecord)
    (b c : AttendanceRecord) (h : l.foldl choose_later (some b) = some c) :
    c = b ∨ c ∈ l := by
  induction l generalizing b with
  | nil =>
    simp only [List.foldl_nil, Option.some.injEq] at h
    exact Or.inl h.symm
  | cons r t ih =>
    simp only [List.foldl_cons, choose_later_some] at h
    split at h
    · rcases ih r h with h' | h'
      · exact Or.inr (by simp [h'])
      · exact Or.inr (List.mem_cons_of_mem _ h')
    · rcases ih b h with h' | h'
      · exact Or.inl h'
      · exact Or.inr (List.mem_cons_of_mem _ h')

theorem foldl_choose_later_le (l : List AttendanceRecord)
    (b c : AttendanceRecord) (h : l.foldl choose_later (some b) = some c) :
    b.clock_in_time ≤ c.clock_in_time ∧
      ∀ r ∈ l, r.clock_in_time ≤ c.clock_in_time := by
  induction l generalizing b with
  | nil =>
    simp only [List.foldl_nil, Option.some.injEq] at h
    subst h
    exact ⟨le_refl _, by simp⟩
  | cons r t ih =>
    simp only [List.foldl_cons, choose_later_some] at h
    split at h
    · obtain ⟨h1, h2⟩ := ih r h
      refine ⟨le_of_lt (lt_of_lt_of_le (by assumption) h1), ?_⟩
      intro q hq
      rcases List.mem_cons.mp hq with h' | h'
      · exact h' ▸ h1
      · exact h2 q h'
    · obtain ⟨h1, h2⟩ := ih b h
      refine ⟨h1, ?_⟩
      intro q hq
      rcases List.mem_cons.mp hq with h' | h'
      · exact h' ▸ le_trans (not_lt.mp (by assumption)) h1
      · exact h2 q h'

theorem mem_open_logs_iff (s : Db) (e : Nat) (r : AttendanceRecord) :
    r ∈ open_logs s e ↔
      r ∈ s.attendance_log ∧ r.employee_id = e ∧ r.clock_out_time = none := by
  simp [open_logs, List.mem_filter, Option.isNone_iff_eq_none, and_assoc]

theorem get_open_attendance_characterises (s : Db) (e : Nat)
    (ol : AttendanceRecord) (h : get_open_attendance s e = some ol) :
    ol ∈ s.attendance_log ∧ ol.employee_id = e ∧ ol.clock_out_time = none ∧
      ∀ r ∈ s.attendance_log, r.employee_id = e → r.clock_out_time = none →
        r.clock_in_time ≤ ol.clock_in_time := by
  unfold get_open_attendance at h
  cases hlog : open_logs s e with
  | nil => rw [hlog] at h; simp at h
  | cons r t =>
    rw [hlog] at h
    simp only [List.foldl_cons, choose_later_none] at h
    have hmem : ol ∈ open_logs s e := by
      rcases foldl_choose_later_mem t r ol h with h' | h'
      · rw [hlog, h']; exact List.mem_cons_self _ _
      · rw [hlog]; exact List.mem_cons_of_mem _ h'
    obtain ⟨hm, he, hout⟩ := (mem_open_logs_iff s e ol).mp hmem
    refine ⟨hm, he, hout, ?_⟩
    intro q hq hqe hqout
    have hqmem : q ∈ open_logs s e := (mem_open_logs_iff s e q).mpr ⟨hq, hqe, hqout⟩
    obtain ⟨h1, h2⟩ := foldl_choose_later_le t r ol h
    rw [hlog] at hqmem
    rcases List.mem_cons.mp hqmem with h' | h'
    · exact h' ▸ h1
    · exact h2 q h'

/-! ## C1 and C3 -/

/-- C1 counterexample: the open-session-uniqueness invariant does not
hold of every reachable state.  Starting from the empty store, two
ClockIn operations for employee 1 (reachable by definition) leave two
records with absent clock_out_time. -/
theorem two_clock_ins_give_two_open_sessions :
    openCount
      (clock_in (clock_in emptyDb 1 100 none "manual").2 1 200 none
        "manual").2 1 = 2 := by decide

/-- C1 (amended): ClockIn does not preserve open-session uniqueness.  It
always appends a fresh open record, so it increments the employee's
open-session count by exactly one whatever the current state; states
with more than one open record per employee are therefore reachable. -/
theorem clock_in_increments_open_count (s : Db) (e : Nat) (t : Int)
    (n : Option String) (src : String) :
    openCount (clock_in s e t n src).2 e = openCount s e + 1 := by
  simp [openCount, open_logs, clock_in, List.filter_append]

/-- C3: ClockOut fails exactly when the employee has no open session or
the supplied time is strictly before the open session's clock-in time;
on failure the store is unchanged (so the open session, if any, stays
open).  The last conjunct identifies the selected open session: an open
record of the employee with maximal clock-in time. -/
theorem clock_out_failure_spec (s : Db) (e : Nat) (t : Int)
    (n : Option String) :
    ((clock_out s e t n).1 = false ↔
      openCount s e = 0 ∨
        ∃ ol, get_open_attendance s e = some ol ∧ t < ol.clock_in_time)
    ∧ ((clock_out s e t n).1 = false → (clock_out s e t n).2 = s)
    ∧ (∀ ol, get_open_attendance s e = some ol →
        ol ∈ s.attendance_log ∧ ol.employee_id = e ∧
          ol.clock_out_time = none ∧
          ∀ r ∈ s.attendance_log, r.employee_id = e →
            r.clock_out_time = none → r.clock_in_time ≤ ol.clock_in_time) := by
  have hcount : openCount s e = 0 ↔ get_open_attendance s e = none := by
    rw [get_open_attendance_eq_none_iff]
    simp [openCount, List.length_eq_zero]
  refine ⟨?_, ?_, fun ol h => get_open_attendance_characterises s e ol h⟩
  · unfold clock_out
    cases hopen : get_open_attendance s e with
    | none =>
      simp only []
      constructor
      · intro _; exact Or.inl (hcount.mpr hopen)
      · intro _; trivial
    | some ol =>
      by_cases hlt : t < ol.clock_in_time
      · simp only [hlt, if_pos hlt]
        constructor
        · intro _; exact Or.inr ⟨ol, rfl, hlt⟩
        · intro _; rfl
      · simp only [if_neg hlt]
        constructor
        · intro hfalse; cases hfalse
        · rintro (h0 | ⟨ol', hol', hlt'⟩)
          · rw [hcount.mp h0] at hopen; cases hopen
          · injection hol' with hol''
            subst hol''
            exact absurd hlt' hlt
  · unfold clock_out
    cases hopen : get_open_attendance s e with
    | none => intro _; rfl
    | some ol =>
      by_cases hlt : t < ol.clock_in_time
      · intro _; simp [hlt]
      · simp [hlt]

/-- C3 witness: on the one-open-session store, clocking out at time 50
(before the clock-in at 100) fails and the store is unchanged; the
selected open session is the clocked-in record. -/
theorem clock_out_failure_spec_witness :
    (clock_out (clock_in emptyDb 1 100 none "manual").2 1 50 none).2
        = (clock_in emptyDb 1 100 none "manual").2
      ∧ ({ id := 1, employee_id := 1, clock_in_time := 100,
           clock_out_time := none, attendance_date := 0, notes := none,
           source := "manual" } : AttendanceRecord)
          ∈ (clock_in emptyDb 1 100 none "manual").2.attendance_log :=
  ⟨(clock_out_failure_spec (clock_in emptyDb 1 100 none "manual").2 1 50
      none).2.1 (by decide),
   ((clock_out_failure_spec (clock_in emptyDb 1 100 none "manual").2 1 50
      none).2.2 _ (by decide)).1⟩

/-! ## Helper lemmas about the balance ledger -/

theorem find?_map_of_find? {α : Type} (p : α → Bool) (f : α → α)
    (hp : ∀ a, p (f a) = p a) (l : List α) (row : α)
    (h : l.find? p = some row) : (l.map f).find? p = some (f row) := by
  induction l with
  | nil => cases h
  | cons a t ih =>
    by_cases ha : p a
    · rw [List.find?_cons_of_pos _ ha] at h
      injection h with h
      subst h
      simp only [List.map_cons]
      exact List.find?_cons_of_pos _ (by rw [hp]; exact ha)
    · rw [List.find?_cons_of_neg _ (by simpa using ha)] at h
      simp only [List.map_cons]
      rw [List.find?_cons_of_neg _ (by rw [hp]; simpa using ha)]
      exact ih h

theorem balance_key_pred_holds (e lt : Nat) (y : Int) (id : Nat) (b : ℚ) :
    (fun (r : LeaveBalance) =>
      r.employee_id == e && r.leave_type_id == lt && r.year == y)
      { id := id, employee_id := e, leave_type_id := lt, year := y,
        balance := b } = true := by simp

/-- After any `update_leave_balance` call, a LeaveBalances row for the key
exists and stores exactly the returned new balance. -/
theorem stored_after_update (s : Db) (e lt : Nat) (y : Int) (a : ℚ)
    (ini : Bool) :
    ∃ row, find_balance_row (update_leave_balance s e lt y a ini).2 e lt y
        = some row
      ∧ row.balance = (update_leave_balance s e lt y a ini).1 := by
  unfold update_leave_balance
  cases h : find_balance_row s e lt y with
  | some r =>
    simp only []
    refine ⟨{ r with balance := if ini then a else r.balance + a }, ?_, rfl⟩
    unfold find_balance_row at h ⊢
    have := find?_map_of_find?
      (fun (q : LeaveBalance) =>
        q.employee_id == e && q.leave_type_id == lt && q.year == y)
      (fun q => if q.id == r.id then
          { q with balance := if ini then a else r.balance + a } else q)
      (by intro q; by_cases hq : q.id == r.id <;> simp [hq])
      s.leave_balances r h
    simpa using this
  | none =>
    simp only []
    refine ⟨{ id := s.next_balance_id, employee_id := e,
              leave_type_id := lt, year := y,
              balance := if ini then a else default_of s lt + a }, ?_, rfl⟩
    unfold find_balance_row at h ⊢
    rw [List.find?_append, h]
    simp

/-- Values returned by `update_leave_balance` in each of its three
branches. -/
theorem update_returned_value (s : Db) (e lt : Nat) (y : Int) (a : ℚ) :
    ((update_leave_balance s e lt y a true).1 = a)
    ∧ (∀ row, find_balance_row s e lt y = some row →
        (update_leave_balance s e lt y a false).1 = row.balance + a)
    ∧ (find_balance_row s e lt y = none →
        (update_leave_balance s e lt y a false).1 = default_of s lt + a) := by
  refine ⟨?_, ?_, ?_⟩
  · unfold update_leave_balance
    cases h : find_balance_row s e lt y <;> simp
  · intro row hrow
    unfold update_leave_balance
    rw [hrow]
    simp
  · intro hnone
    unfold update_leave_balance
    rw [hnone]
    simp

theorem get_of_stored (s : Db) (e lt : Nat) (y : Int) (row : LeaveBalance)
    (h : find_balance_row s e lt y = some row) :
    get_leave_balance s e lt y = row.balance := by
  unfold get_leave_balance
  rw [h]

/-! ## C2 and C9 -/

/-- C2: ApplyDelta semantics.  With isInitial=true the stored balance
becomes exactly the amount whether or not a row existed; with
isInitial=false and an existing row it becomes the existing balance plus
the amount; with isInitial=false and no row it becomes the leave type's
default balance (or 0) plus the amount, persisted as a new row. -/
theorem update_leave_balance_spec (s : Db) (e lt : Nat) (y : Int)
    (amount : ℚ) :
    (get_leave_balance (update_leave_balance s e lt y amount true).2 e lt y
        = amount)
    ∧ (∀ row, find_balance_row s e lt y = some row →
        get_leave_balance (update_leave_balance s e lt y amount false).2
            e lt y = row.balance + amount)
    ∧ (find_balance_row s e lt y = none →
        get_leave_balance (update_leave_balance s e lt y amount false).2
            e lt y = default_of s lt + amount
        ∧ ∃ row,
            find_balance_row (update_leave_balance s e lt y amount false).2
                e lt y = some row
            ∧ row.balance = default_of s lt + amount) := by
  refine ⟨?_, ?_, ?_⟩
  · obtain ⟨row, hfind, hbal⟩ := stored_after_update s e lt y amount true
    rw [get_of_stored _ _ _ _ _ hfind, hbal,
      (update_returned_value s e lt y amount).1]
  · intro row hrow
    obtain ⟨row', hfind, hbal⟩ := stored_after_update s e lt y amount false
    rw [get_of_stored _ _ _ _ _ hfind, hbal,
      (update_returned_value s e lt y amount).2.1 row hrow]
  · intro hnone
    obtain ⟨row', hfind, hbal⟩ := stored_after_update s e lt y amount false
    have hv := (update_returned_value s e lt y amount).2.2 hnone
    exact ⟨by rw [get_of_stored _ _ _ _ _ hfind, hbal, hv],
           ⟨row', hfind, by rw [hbal, hv]⟩⟩

/-- C2 witness: on a store holding a balance row of 15 for the key
(1, 1, 2024), setting initially to 7 stores 7, and adding a delta of -5
stores 15 + (-5); on a store with no row but default 20 for the leave
type, a delta of -5 stores 20 + (-5). -/
theorem update_leave_balance_spec_witness :
    (get_leave_balance
        (update_leave_balance
          { emptyDb with
              leave_types := [{ id := 1, type_name := "Annual",
                                default_balance := some 20 }],
              leave_balances := [{ id := 1, employee_id := 1,
                                   leave_type_id := 1, year := 2024,
                                   balance := 15 }] }
          1 1 2024 7 true).2 1 1 2024 = 7)
    ∧ (get_leave_balance
        (update_leave_balance
          { emptyDb with
              leave_types := [{ id := 1, type_name := "Annual",
                                default_balance := some 20 }],
              leave_balances := [{ id := 1, employee_id := 1,
                                   leave_type_id := 1, year := 2024,
                                   balance := 15 }] }
          1 1 2024 (-5) false).2 1 1 2024 = 15 + (-5))
    ∧ (get_leave_balance
        (update_leave_balance
          { emptyDb with
              leave_types := [{ id := 1, type_name := "Annual",
                                default_balance := some 20 }] }
          1 1 2024 (-5) false).2 1 1 2024 = 20 + (-5)) :=
  ⟨(update_leave_balance_spec _ 1 1 2024 7).1,
   by
    have := (update_leave_balance_spec
      { emptyDb with
          leave_types := [{ id := 1, type_name := "Annual",
                            default_balance := some 20 }],
          leave_balances := [{ id := 1, employee_id := 1,
                               leave_type_id := 1, year := 2024,
                               balance := 15 }] }
      1 1 2024 (-5)).2.1
      { id := 1, employee_id := 1, leave_type_id := 1, year := 2024,
        balance := 15 } (by decide)
    simpa using this,
   by
    have := ((update_leave_balance_spec
      { emptyDb with
          leave_types := [{ id := 1, type_name := "Annual",
                            default_balance := some 20 }] }
      1 1 2024 (-5)).2.2 (by decide)).1
    simpa [default_of, find_leave_type] using this⟩

/-- C9: two non-initial ApplyDelta calls with amounts x and z compose to
a single non-initial ApplyDelta of x + z: the final stored balance for
the key agrees, from any starting store. -/
theorem apply_delta_composes (s : Db) (e lt : Nat) (y : Int) (x z : ℚ) :
    get_leave_balance
        (update_leave_balance
          (update_leave_balance s e lt y x false).2 e lt y z false).2
        e lt y
      = get_leave_balance
          (update_leave_balance s e lt y (x + z) false).2 e lt y := by
  obtain ⟨r1, hr1, hb1⟩ := stored_after_update s e lt y x false
  obtain ⟨r2, hr2, hb2⟩ :=
    stored_after_update (update_leave_balance s e lt y x false).2 e lt y
      z false
  obtain ⟨r3, hr3, hb3⟩ := stored_after_update s e lt y (x + z) false
  rw [get_of_stored _ _ _ _ _ hr2, get_of_stored _ _ _ _ _ hr3, hb2, hb3]
  rw [(update_returned_value _ e lt y z).2.1 r1 hr1, hb1]
  cases h : find_balance_row s e lt y with
  | some r =>
    rw [(update_returned_value s e lt y x).2.1 r h,
        (update_returned_value s e lt y (x + z)).2.1 r h]
    ring
  | none =>
    rw [(update_returned_value s e lt y x).2.2 h,
        (update_returned_value s e lt y (x + z)).2.2 h]
    ring

/-! ## C4 -/

/-- C4: GetBalance resolution order.  Under the schema's uniqueness
constraints (at most one LeaveBalances row per key triple, at most one
LeaveTypes row per id): a stored row's balance wins; else a non-null
leave-type default is returned; else 0.  The call performs no writes:
the returned store is the input store. -/
theorem get_leave_balance_resolution (s : Db) (e lt : Nat) (y : Int)
    (hbal : ∀ r1 ∈ s.leave_balances, ∀ r2 ∈ s.leave_balances,
        r1.employee_id = e → r1.leave_type_id = lt → r1.year = y →
        r2.employee_id = e → r2.leave_type_id = lt → r2.year = y → r1 = r2)
    (hlts : ∀ t1 ∈ s.leave_types, ∀ t2 ∈ s.leave_types,
        t1.id = lt → t2.id = lt → t1 = t2) :
    (∀ row ∈ s.leave_balances,
        row.employee_id = e → row.leave_type_id = lt → row.year = y →
        get_leave_balance s e lt y = row.balance)
    ∧ ((∀ row ∈ s.leave_balances,
          ¬(row.employee_id = e ∧ row.leave_type_id = lt ∧ row.year = y)) →
        ∀ ltr ∈ s.leave_types, ltr.id = lt →
          ∀ d, ltr.default_balance = some d →
            get_leave_balance s e lt y = d)
    ∧ ((∀ row ∈ s.leave_balances,
          ¬(row.employee_id = e ∧ row.leave_type_id = lt ∧ row.year = y)) →
        (∀ ltr ∈ s.leave_types, ltr.id = lt → ltr.default_balance = none) →
        get_leave_balance s e lt y = 0)
    ∧ (get_leave_balance_call s e lt y).2 = s := by
  have hfind_none :
      (∀ row ∈ s.leave_balances,
        ¬(row.employee_id = e ∧ row.leave_type_id = lt ∧ row.year = y)) →
      find_balance_row s e lt y = none := by
    intro hnone
    unfold find_balance_row
    apply List.find?_eq_none.mpr
    intro r hr
    have := hnone r hr
    simpa using this
  refine ⟨?_, ?_, ?_, rfl⟩
  · intro row hmem h1 h2 h3
    cases hf : find_balance_row s e lt y with
    | none =>
      exfalso
      unfold find_balance_row at hf
      have := List.find?_eq_none.mp hf row hmem
      simp [h1, h2, h3] at this
    | some r0 =>
      unfold find_balance_row at hf
      have hp := List.find?_some hf
      have hm0 := List.mem_of_find?_eq_some hf
      simp only [Bool.and_eq_true, beq_iff_eq] at hp
      have heq : r0 = row :=
        hbal r0 hm0 row hmem hp.1.1 hp.1.2 hp.2 h1 h2 h3
      unfold get_leave_balance find_balance_row
      rw [hf, heq]
  · intro hnone ltr hmem hid d hd
    have hf := hfind_none hnone
    unfold get_leave_balance
    rw [hf]
    cases hlt0 : find_leave_type s lt with
    | none =>
      exfalso
      unfold find_leave_type at hlt0
      have := List.find?_eq_none.mp hlt0 ltr hmem
      simp [hid] at this
    | some t0 =>
      unfold find_leave_type at hlt0
      have hp := List.find?_some hlt0
      have hm0 := List.mem_of_find?_eq_some hlt0
      simp only [beq_iff_eq] at hp
      have heq : t0 = ltr := hlts t0 hm0 ltr hmem hp hid
      rw [heq]
      simp [hd]
  · intro hnone hdef
    have hf := hfind_none hnone
    unfold get_leave_balance
    rw [hf]
    cases hlt0 : find_leave_type s lt with
    | none => rfl
    | some t0 =>
      unfold find_leave_type at hlt0
      have hp := List.find?_some hlt0
      have hm0 := List.mem_of_find?_eq_some hlt0
      simp only [beq_iff_eq] at hp
      simp [hdef t0 hm0 hp]

/-- C4 witness: with a stored row the row's balance (15) is returned;
with no row the leave type default (20) is returned; with no row and no
leave type at all 0 is returned; in every case the store is returned
unchanged. -/
theorem get_leave_balance_resolution_witness :
    (get_leave_balance
        { emptyDb with
            leave_types := [{ id := 1, type_name := "Annual",
                              default_balance := some 20 }],
            leave_balances := [{ id := 1, employee_id := 1,
                                 leave_type_id := 1, year := 2024,
                                 balance := 15 }] } 1 1 2024 = 15)
    ∧ (get_leave_balance
        { emptyDb with
            leave_types := [{ id := 1, type_name := "Annual",
                              default_balance := some 20 }] }
        1 1 2024 = 20)
    ∧ (get_leave_balance emptyDb 1 1 2024 = 0)
    ∧ (get_leave_balance_call emptyDb 1 1 2024).2 = emptyDb :=
  ⟨(get_leave_balance_resolution _ 1 1 2024 (by decide) (by decide)).1
      { id := 1, employee_id := 1, leave_type_id := 1, year := 2024,
        balance := 15 } (by decide) rfl rfl rfl,
   (get_leave_balance_resolution _ 1 1 2024 (by decide) (by decide)).2.1
      (by decide)
      { id := 1, type_name := "Annual", default_balance := some 20 }
      (by decide) rfl 20 rfl,
   (get_leave_balance_resolution emptyDb 1 1 2024 (by decide)
      (by decide)).2.2.1 (by decide) (by decide),
   (get_leave_balance_resolution emptyDb 1 1 2024 (by decide)
      (by decide)).2.2.2⟩

/-! ## C5 and C7 -/

theorem opt_filter_eq_true_iff {α : Type} [BEq α] [LawfulBEq α]
    (f : Option α) (v : α) :
    opt_filter f v = true ↔ ∀ x, f = some x → v = x := by
  cases f <;> simp [opt_filter]

/-- C5: LeaveReport inclusion is interval overlap (request.start_date <=
query end and request.end_date >= query start), combined with the
optional employee / leave-type / status filters, for every request whose
employee and leave type resolve (the report's inner joins). -/
theorem leave_report_overlap_spec (s : Db) (qstart qend : Int)
    (fe flt : Option Nat) (fst : Option String) (r : LeaveRequest)
    (hE : ∃ emp ∈ s.employees, emp.id = r.employee_id)
    (hT : ∃ t ∈ s.leave_types, t.id = r.leave_type_id) :
    r ∈ get_leave_report s qstart qend fe flt fst ↔
      r ∈ s.leave_requests ∧ r.start_date ≤ qend ∧ qstart ≤ r.end_date ∧
        (∀ e, fe = some e → r.employee_id = e) ∧
        (∀ lt, flt = some lt → r.leave_type_id = lt) ∧
        (∀ st, fst = some st → r.status = st) := by
  have hE' : s.employees.any (fun emp => emp.id == r.employee_id) = true := by
    obtain ⟨emp, hm, hid⟩ := hE
    exact List.any_eq_true.mpr ⟨emp, hm, by simp [hid]⟩
  have hT' : s.leave_types.any (fun t => t.id == r.leave_type_id) = true := by
    obtain ⟨t, hm, hid⟩ := hT
    exact List.any_eq_true.mpr ⟨t, hm, by simp [hid]⟩
  unfold get_leave_report
  rw [List.mem_filter]
  simp [hE', hT', opt_filter_eq_true_iff, and_assoc]

/-- C5 witness: a request spanning days 1 to 5 of a month is included in
the query window days 4 to 10 (partial overlap) and excluded from the
window days 10 to 20 (no overlap). -/
theorem leave_report_overlap_spec_witness :
    (({ id := 1, employee_id := 1, leave_type_id := 1, start_date := 1,
        end_date := 5, reason := "Vacation", status := "Pending",
        approver_id := none, request_date := 0 } : LeaveRequest)
      ∈ get_leave_report
          { emptyDb with
              employees := [{ id := 1, first_name := "A", last_name := "B",
                              employee_code := "E1" }],
              leave_types := [{ id := 1, type_name := "Annual",
                                default_balance := some 20 }],
              leave_requests := [{ id := 1, employee_id := 1,
                                   leave_type_id := 1, start_date := 1,
                                   end_date := 5, reason := "Vacation",
                                   status := "Pending",
                                   approver_id := none,
                                   request_date := 0 }] }
          4 10 none none none)
    ∧ (({ id := 1, employee_id := 1, leave_type_id := 1, start_date := 1,
          end_date := 5, reason := "Vacation", status := "Pending",
          approver_id := none, request_date := 0 } : LeaveRequest)
        ∉ get_leave_report
            { emptyDb with
                employees := [{ id := 1, first_name := "A",
                                last_name := "B", employee_code := "E1" }],
                leave_types := [{ id := 1, type_name := "Annual",
                                  default_balance := some 20 }],
                leave_requests := [{ id := 1, employee_id := 1,
                                     leave_type_id := 1, start_date := 1,
                                     end_date := 5, reason := "Vacation",
                                     status := "Pending",
                                     approver_id := none,
                                     request_date := 0 }] }
            10 20 none none none) :=
  ⟨(leave_report_overlap_spec _ 4 10 none none none _
      ⟨{ id := 1, first_name := "A", last_name := "B",
         employee_code := "E1" }, by decide, rfl⟩
      ⟨{ id := 1, type_name := "Annual", default_balance := some 20 },
        by decide, rfl⟩).mpr
      ⟨by decide, by decide, by decide, by simp, by simp, by simp⟩,
   fun hmem =>
     absurd
       ((leave_report_overlap_spec _ 10 20 none none none _
          ⟨{ id := 1, first_name := "A", last_name := "B",
             employee_code := "E1" }, by decide, rfl⟩
          ⟨{ id := 1, type_name := "Annual", default_balance := some 20 },
            by decide, rfl⟩).mp hmem).2.2.1
       (by decide)⟩

/-- C7: AbsenteeReport lists an employee exactly when the employee is in
the directory, has no attendance record dated to the report date, and
has no Approved leave request whose date interval contains it. -/
theorem absentee_report_spec (s : Db) (d : Int) (e : Employee) :
    e ∈ get_absentee_report s d ↔
      e ∈ s.employees
      ∧ (∀ al ∈ s.attendance_log, al.employee_id = e.id →
          al.attendance_date ≠ d)
      ∧ (∀ lr ∈ s.leave_requests, lr.employee_id = e.id →
          lr.status = "Approved" →
          ¬(lr.start_date ≤ d ∧ d ≤ lr.end_date)) := by
  unfold get_absentee_report
  rw [List.mem_filter]
  simp only [Bool.and_eq_true, Bool.not_eq_true', List.any_eq_false,
    Bool.and_eq_false_iff, beq_iff_eq, beq_eq_false_iff_ne,
    decide_eq_true_eq, decide_eq_false_iff_not]
  constructor
  · rintro ⟨hmem, hatt, hleave⟩
    exact ⟨hmem,
      fun al hal hid hdate => hatt al hal ⟨hid, hdate⟩,
      fun lr hlr hid hst hint =>
        hleave lr hlr ⟨⟨⟨hid, hst⟩, hint.1⟩, hint.2⟩⟩
  · rintro ⟨hmem, hatt, hleave⟩
    exact ⟨hmem,
      fun al hal hc => hatt al hal hc.1 hc.2,
      fun lr hlr hc => hleave lr hlr hc.1.1.1 hc.1.1.2 ⟨hc.1.2, hc.2⟩⟩

/-! ## C8 -/

/-- C8: Approve and Reject fail exactly when the request id is absent
(and then leave the store unchanged); otherwise they succeed
unconditionally, overwriting status and approver regardless of the
current status, so Approve then Reject on an existing id ends with
status Rejected and the second caller as approver. -/
theorem approve_reject_spec (s : Db) (rid a1 a2 : Nat) :
    ((approve_leave_request s rid a1).1 = false ↔
      ∀ q ∈ s.leave_requests, q.id ≠ rid)
    ∧ ((reject_leave_request s rid a2).1 = false ↔
      ∀ q ∈ s.leave_requests, q.id ≠ rid)
    ∧ ((approve_leave_request s rid a1).1 = false →
        (approve_leave_request s rid a1).2 = s)
    ∧ ((reject_leave_request s rid a2).1 = false →
        (reject_leave_request s rid a2).2 = s)
    ∧ (∀ r, s.leave_requests.find? (fun q => q.id == rid) = some r →
        (approve_leave_request s rid a1).1 = true
        ∧ (reject_leave_request (approve_leave_request s rid a1).2 rid
            a2).1 = true
        ∧ (reject_leave_request (approve_leave_request s rid a1).2 rid
              a2).2.leave_requests.find? (fun q => q.id == rid)
          = some { r with status := "Rejected",
                          approver_id := some a2 }) := by
  have hfail : ∀ st ap,
      (update_leave_request_status s rid st ap).1 = false ↔
        ∀ q ∈ s.leave_requests, q.id ≠ rid := by
    intro st ap
    unfold update_leave_request_status
    cases hf : s.leave_requests.find? (fun q => q.id == rid) with
    | none =>
      simp only [true_iff]
      intro q hq
      have := List.find?_eq_none.mp hf q hq
      simpa using this
    | some r0 =>
      have hp := List.find?_some hf
      have hm := List.mem_of_find?_eq_some hf
      simp only [beq_iff_eq] at hp
      constructor
      · intro h; cases h
      · intro hall; exact absurd hp (hall r0 hm)
  have hunch : ∀ st ap,
      (update_leave_request_status s rid st ap).1 = false →
        (update_leave_request_status s rid st ap).2 = s := by
    intro st ap
    unfold update_leave_request_status
    cases hf : s.leave_requests.find? (fun q => q.id == rid) with
    | none => intro _; rfl
    | some r0 => intro h; cases h
  refine ⟨hfail "Approved" a1, hfail "Rejected" a2,
    hunch "Approved" a1, hunch "Rejected" a2, ?_⟩
  intro r hr
  have hid : r.id = rid := by
    have := List.find?_some hr
    simpa using this
  have happ1 :
      (approve_leave_request s rid a1).2.leave_requests.find?
          (fun q => q.id == rid)
        = some { r with status := "Approved", approver_id := some a1 } := by
    unfold approve_leave_request update_leave_request_status
    rw [hr]
    simp only []
    have := find?_map_of_find? (fun (q : LeaveRequest) => q.id == rid)
      (fun q => if q.id == rid then
          { q with status := "Approved", approver_id := some a1 }
        else q)
      (by intro q; by_cases hq : q.id == rid <;> simp [hq])
      s.leave_requests r hr
    rw [this]
    simp [hid]
  refine ⟨?_, ?_, ?_⟩
  · unfold approve_leave_request update_leave_request_status
    rw [hr]
  · unfold reject_leave_request update_leave_request_status
    rw [happ1]
  · unfold reject_leave_request update_leave_request_status
    rw [happ1]
    simp only []
    have := find?_map_of_find? (fun (q : LeaveRequest) => q.id == rid)
      (fun q => if q.id == rid then
          { q with status := "Rejected", approver_id := some a2 }
        else q)
      (by intro q; by_cases hq : q.id == rid <;> simp [hq])
      (approve_leave_request s rid a1).2.leave_requests
      { r with status := "Approved", approver_id := some a1 } happ1
    rw [this]
    simp [hid]

/-- C8 witness: on a store holding request 7 in status Pending, Approve
by user 1 then Reject by user 2 both succeed, and the request ends
Rejected with approver 2. -/
theorem approve_reject_spec_witness :
    ((approve_leave_request
        { emptyDb with
            leave_requests := [{ id := 7, employee_id := 1,
                                 leave_type_id := 1, start_date := 1,
                                 end_date := 5, reason := "Vacation",
                                 status := "Pending", approver_id := none,
                                 request_date := 0 }] } 7 1).1 = true)
    ∧ ((reject_leave_request
          (approve_leave_request
            { emptyDb with
                leave_requests := [{ id := 7, employee_id := 1,
                                     leave_type_id := 1, start_date := 1,
                                     end_date := 5, reason := "Vacation",
                                     status := "Pending",
                                     approver_id := none,
                                     request_date := 0 }] } 7 1).2
          7 2).2.leave_requests.find? (fun q => q.id == 7)
        = some { id := 7, employee_id := 1, leave_type_id := 1,
                 start_date := 1, end_date := 5, reason := "Vacation",
                 status := "Rejected", approver_id := some 2,
                 request_date := 0 }) :=
  ⟨((approve_reject_spec
      { emptyDb with
          leave_requests := [{ id := 7, employee_id := 1,
                               leave_type_id := 1, start_date := 1,
                               end_date := 5, reason := "Vacation",
                               status := "Pending", approver_id := none,
                               request_date := 0 }] } 7 1 2).2.2.2.2
      { id := 7, employee_id := 1, leave_type_id := 1, start_date := 1,
        end_date := 5, reason := "Vacation", status := "Pending",
        approver_id := none, request_date := 0 } (by decide)).1,
   ((approve_reject_spec
      { emptyDb with
          leave_requests := [{ id := 7, employee_id := 1,
                               leave_type_id := 1, start_date := 1,
                               end_date := 5, reason := "Vacation",
                               status := "Pending", approver_id := none,
                               request_date := 0 }] } 7 1 2).2.2.2.2
      { id := 7, employee_id := 1, leave_type_id := 1, start_date := 1,
        end_date := 5, reason := "Vacation", status := "Pending",
        approver_id := none, request_date := 0 } (by decide)).2.2⟩

/-! ## C6 -/

/-- C6 counterexample: on a record whose clock-out (time 0) precedes its
clock-in (time 3600) the duration column is the string
"Invalid (Out < In)", not the bare sentinel "Invalid" stated by the
claim. -/
theorem duration_sentinel_counterexample :
    calculate_duration (some 3600) (some 0) ≠ "Invalid"
    ∧ calculate_duration (some 3600) (some 0) = "Invalid (Out < In)" := by
  constructor
  · decide
  · decide

/-- C6 (amended): the duration computation returns "Open" when clock-out
is absent, the sentinel "Invalid (Out < In)" when clock-out is strictly
before clock-in, and otherwise the wall-clock difference as zero-padded
HH:MM:SS with hours not wrapped at 24; and every DailyAttendanceReport
row's duration column is computed this way from its record. -/
theorem calculate_duration_spec (cin cout : Int) :
    (calculate_duration (some cin) none = "Open")
    ∧ (cout < cin →
        calculate_duration (some cin) (some cout) = "Invalid (Out < In)")
    ∧ (cin ≤ cout → ∃ h m sec : Nat,
        (cout - cin).toNat = h * 3600 + m * 60 + sec ∧ m < 60 ∧ sec < 60 ∧
        calculate_duration (some cin) (some cout) =
          format2 h ++ ":" ++ format2 m ++ ":" ++ format2 sec)
    ∧ (∀ s d row, row ∈ get_daily_attendance_report s d →
        row.duration =
          calculate_duration (some row.clock_in_time) row.clock_out_time) := by
  refine ⟨rfl, ?_, ?_, ?_⟩
  · intro h
    simp [calculate_duration, h]
  · intro h
    refine ⟨(cout - cin).toNat / 3600, ((cout - cin).toNat % 3600) / 60,
      (cout - cin).toNat % 60, by omega, by omega, by omega, ?_⟩
    simp [calculate_duration, not_lt.mpr h]
  · intro s d row hrow
    unfold get_daily_attendance_report at hrow
    rw [List.mem_map] at hrow
    obtain ⟨r, _, hr⟩ := hrow
    rw [← hr]

/-- C6 witness: clock-in at 09:00:00 and clock-out at 17:30:00 of the
same day give the duration string "08:30:00"; a clock-out before
clock-in gives the invalid sentinel; 90 hours are not wrapped at 24. -/
theorem calculate_duration_spec_witness :
    (calculate_duration (some 32400) (some 63000) = "08:30:00")
    ∧ (calculate_duration (some 3600) (some 0) = "Invalid (Out < In)")
    ∧ (∃ h m sec : Nat,
        ((63000 : Int) - 32400).toNat = h * 3600 + m * 60 + sec ∧
        m < 60 ∧ sec < 60 ∧
        calculate_duration (some 32400) (some 63000) =
          format2 h ++ ":" ++ format2 m ++ ":" ++ format2 sec)
    ∧ (calculate_duration (some 0) (some (90 * 3600)) = "90:00:00") :=
  ⟨by decide,
   (calculate_duration_spec 3600 0).2.1 (by decide),
   (calculate_duration_spec 32400 63000).2.2.1 (by decide),
   by decide⟩

/-! ## C10 -/

/-- C10 counterexample: a storage-failure run of GetBalance on a store
that actually holds balance 5 for the key returns 0, exactly the value
of a normal successful run on a store with no row and no default.  The
caller cannot tell the storage failure apart from a legitimate zero
balance. -/
theorem storage_error_indistinguishable :
    get_leave_balance_run true
        { emptyDb with
            leave_balances := [{ id := 1, employee_id := 1,
                                 leave_type_id := 1, year := 2024,
                                 balance := 5 }] } 1 1 2024
      = get_leave_balance_run false emptyDb 1 1 2024
    ∧ get_leave_balance_run false emptyDb 1 1 2024 = 0 := by
  constructor
  · decide
  · decide

/-- C10 (amended): storage failures are mapped to per-function fallback
return values, not to a uniformly distinguishable error outcome: a
failed ClockIn returns no id while a successful one always returns one
(distinguishable), but a failed GetBalance returns 0, a value a normal
run can also produce. -/
theorem storage_error_fallback_spec (s : Db) (e lt : Nat) (y : Int)
    (t : Int) (n : Option String) (src : String) :
    (get_leave_balance_run true s e lt y = 0)
    ∧ ((clock_in_run true s e t n src).1 = none)
    ∧ ((clock_in_run true s e t n src).2 = s)
    ∧ ((clock_in_run false s e t n src).1
        = some (clock_in s e t n src).1) :=
  ⟨rfl, rfl, rfl, rfl⟩
